import Mathlib

/-
Shallow embedding of the build-orchestration logic of openshift/source-to-image
(early python prototypes): src/sti/cmd/builder.py and src/wharfie/cmd/builder.py.

Python functions become Lean functions; the docker daemon and the filesystem
are modelled as explicit state records threaded through the functions; a
python function that can raise returns an `Except` (or carries the propagated
exception in its result record); `try/finally` is encoded by applying the
finally-block transformation on every exit path of the embedding.
-/

namespace STI

/-- Model of os.path.join for the simple relative components used by the
builder (no leading slashes, no trailing slashes on the left part). -/
def pathJoin (a b : String) : String := a ++ "/" ++ b

/-- Python list indexing l[i]: returns the element, or raises IndexError
when the index is out of range. -/
def pyIndex {α : Type} (l : List α) (i : Nat) : Except String α :=
  match l.get? i with
  | some x => Except.ok x
  | none => Except.error "IndexError"

/-- Whether the first list is an initial segment of the second. -/
def listStarts : List Char → List Char → Bool
  | [], _ => true
  | _ :: _, [] => false
  | p :: ps, s :: ss => p == s && listStarts ps ss

/-- Whether the string s starts with the string p. -/
def pyStartsWith (s p : String) : Bool := listStarts p.data s.data

/-- Python str.split(sep) for a one-character separator: split on every
occurrence of the separator, keeping empty segments. -/
def splitChar (c : Char) : List Char → List (List Char)
  | [] => [[]]
  | x :: xs =>
    let r := splitChar c xs
    if x == c then [] :: r
    else
      match r with
      | [] => [[x]]
      | y :: ys => (x :: y) :: ys

/-- Python env.split("="): the segments of the string between the equals
signs, in order, empty segments kept. -/
def pySplitEq (s : String) : List String :=
  (splitChar '=' s.data).map (fun l => String.mk l)

/-- builder.py line 190: the regex ^(http(s?)|git|file):// matched against
the source specifier. -/
def isRemoteSource (s : String) : Bool :=
  pyStartsWith s "http://" || pyStartsWith s "https://" ||
  pyStartsWith s "git://" || pyStartsWith s "file://"

/-- Outcome of Builder.prepare_source_dir (builder.py 189-199).  On a clone
failure the function logs the failing command with its exit code and returns
False (here: cloneFailed carrying both); on the copytree path and the
successful clone path it falls through, returning None (here: fetched). -/
inductive FetchOutcome where
  | cloneFailed (cmd : String) (returncode : Int)
  | fetched
  deriving DecidableEq, Repr

/-- Oracle giving the git clone exit code for each source url. -/
structure CloneOracle where
  exitCode : String → Int

/-- builder.py 189-199 Builder.prepare_source_dir: remote sources are cloned
with git (non-zero exit logged, False returned); local sources are copied
with shutil.copytree.  Returns the outcome together with the directories
present on disk afterwards. -/
def prepare_source_dir (oracle : CloneOracle) (source target : String)
    (dirs : List String) : FetchOutcome × List String :=
  if isRemoteSource source then
    let cmd := "git clone --quiet " ++ source ++ " " ++ target
    if oracle.exitCode source ≠ 0 then
      (FetchOutcome.cloneFailed cmd (oracle.exitCode source), dirs)
    else
      (FetchOutcome.fetched, target :: dirs)
  else
    (FetchOutcome.fetched, target :: dirs)

/-- builder.py 220-224: the env loop of the Dockerfile generation.  Each entry
is env.split("=") and then env[0] and env[1] are read, so an entry without
an equals sign raises IndexError (env[1] on a one-element list).  The error
case carries the lines written to the Dockerfile before the raise. -/
def writeEnvLines : List String → List String → Except (List String) (List String)
  | [], acc => Except.ok acc
  | e :: rest, acc =>
    match pySplitEq e with
    | name :: value :: _ =>
        writeEnvLines rest (acc ++ ["ENV " ++ name ++ " " ++ value ++ "\n"])
    | _ => Except.error acc

/-- builder.py 214-227 Builder.build_deployable_image: the Dockerfile it
writes (the identical logic appears inline in wharfie builder.py 127-138):
FROM base, ADD ./src, optional ADD ./artifacts when incremental, one ENV line
per env entry, RUN prepare, CMD run.  The error case is the IndexError raised
on a malformed env entry, carrying the lines written before the raise. -/
def build_deployable_image (image_name : String) (incremental : Bool)
    (env_str : List String) : Except (List String) (List String) :=
  let acc := ["FROM " ++ image_name ++ "\n", "ADD ./src /usr/src/\n"]
  let acc2 := if incremental then acc ++ ["ADD ./artifacts /usr/artifacts/\n"] else acc
  match writeEnvLines env_str acc2 with
  | Except.error w => Except.error w
  | Except.ok acc3 =>
      Except.ok (acc3 ++ ["RUN /usr/bin/prepare\n", "CMD /usr/bin/run\n"])

/-- Daemon-side container state visible to the builder: a fresh-id counter,
the containers currently existing in the runtime, and the exit code the wait
call reports for each container. -/
structure ContainerRuntime where
  nextId : Nat
  running : List Nat
  waitCode : Nat → Int

/-- builder.py 201-212 Builder.save_artifacts: create the save-artifacts
container with the artifacts volume, start it with the bind mount, wait for
it (the exit code is bound but never examined, per the TODO on line 209),
log its output, sleep, and remove it. -/
def save_artifacts (rt : ContainerRuntime) (_image_name _target_dir : String) :
    ContainerRuntime :=
  let cid := rt.nextId
  let rt1 : ContainerRuntime :=
    { nextId := cid + 1, running := cid :: rt.running, waitCode := rt.waitCode }
  let _exitcode := rt1.waitCode cid
  { rt1 with running := rt1.running.erase cid }

/-- The image registry visible to the builder: names present locally and
names that a pull can bring in from the remote. -/
structure Registry where
  localNames : List String
  remoteNames : List String

/-- builder.py 97-100 Builder.is_image_in_local_registry. -/
def is_image_in_local_registry (r : Registry) (name : String) : Bool :=
  r.localNames.contains name

/-- builder.py 91-95 Builder.pull_image: pull only when the image is absent
locally; a pull of an image the remote does not have leaves the local
registry unchanged (the failure is not raised to the caller). -/
def pull_image (r : Registry) (name : String) : Registry :=
  if is_image_in_local_registry r name then r
  else if r.remoteNames.contains name then
    { r with localNames := name :: r.localNames }
  else r

/-- The directory name tempfile.mkdtemp returns in this model. -/
def TEMP_DIR : String := "/tmp/sti-build"

/-- shutil.rmtree d: removes d and every directory below it. -/
def rmtree (d : String) (dirs : List String) : List String :=
  dirs.filter (fun x => !(pyStartsWith x d))

/-- Observable outcome of one Builder.build run (builder.py 234-256). -/
structure BuildTrace where
  fetchResult : FetchOutcome
  daemonLines : Option (List String)
  img : Option String
  raised : Option String
  dirs : List String
  rt : ContainerRuntime

set_option maxHeartbeats 1000000 in
/-- builder.py 234-256 Builder.build, the direct single-image pipeline:
make (or reuse) the build directory, optionally extract prior artifacts,
fetch the source (its return value is not inspected by build), generate the
Dockerfile and run the daemon build; the finally block removes the build
directory unless the caller supplied working_dir.  daemonResult is the image
id the daemon build returns (none = daemon build produced no image). -/
def build (oracle : CloneOracle) (rt : ContainerRuntime) (dirs : List String)
    (working_dir : Option String) (image_name source_dir : String)
    (incremental_build : Bool) (tag : String) (env_str : List String)
    (daemonResult : Option String) : BuildTrace :=
  let build_dir := working_dir.getD TEMP_DIR
  let dirs0 := match working_dir with
    | none => build_dir :: dirs
    | some _ => dirs
  let artifact_tmp_dir := pathJoin build_dir "artifacts"
  let rd := if incremental_build then
      (save_artifacts rt tag artifact_tmp_dir, artifact_tmp_dir :: dirs0)
    else (rt, dirs0)
  let build_context_source := pathJoin build_dir "src"
  let pres : FetchOutcome × List String :=
    prepare_source_dir oracle source_dir build_context_source rd.2
  let step := build_deployable_image image_name incremental_build env_str
  let cleanup : List String → List String := fun ds =>
    match working_dir with
    | none => rmtree build_dir ds
    | some _ => ds
  let outcome : Option (List String) × Option String × Option String :=
    match step with
    | Except.error _ => (none, none, some "IndexError")
    | Except.ok lines => (some lines, daemonResult, none)
  { fetchResult := pres.1, daemonLines := outcome.1, img := outcome.2.1,
    raised := outcome.2.2, dirs := cleanup pres.2, rt := rd.1 }

/-- Observable outcome of one Builder.extended_build run (builder.py 258-311). -/
structure ExtTrace where
  raised : Option String
  daemonLines : Option (List String)
  dirs : List String
  running : List Nat
  reg : Registry

set_option maxHeartbeats 1000000 in
/-- builder.py 258-311 Builder.extended_build, the two-image pipeline:
make the build directories, optionally pull the prior build image and extract
its artifacts, fetch the source (return value again not inspected), run the
compile container from the build image, raise when its exit code is non-zero,
otherwise generate the runtime Dockerfile (incremental defaults to False
there) and run the daemon build, committing and tagging the compile container
on success.  The finally block removes the compile container whenever its id
was obtained and removes the build directories unless working_dir was
supplied. -/
def extended_build (oracle : CloneOracle) (rt : ContainerRuntime) (reg : Registry)
    (dirs : List String) (working_dir : Option String)
    (_build_image runtime_image source_dir : String) (incremental_build : Bool)
    (_tag app_build_tag : String) (env_str : List String)
    (daemonResult : Option String) : ExtTrace :=
  let build_dir := working_dir.getD TEMP_DIR
  let dirs0 := match working_dir with
    | none => build_dir :: dirs
    | some _ => dirs
  let builder_build_dir := pathJoin build_dir "build"
  let runtime_build_dir := pathJoin build_dir "runtime"
  let previous_build_volume := pathJoin builder_build_dir "last_build_artifacts"
  let input_source_dir := pathJoin builder_build_dir "src"
  let output_source_dir := pathJoin runtime_build_dir "src"
  let dirs1 := output_source_dir :: previous_build_volume :: runtime_build_dir ::
               builder_build_dir :: dirs0
  let rr : ContainerRuntime × Registry := if incremental_build then
      (save_artifacts rt app_build_tag previous_build_volume, pull_image reg app_build_tag)
    else (rt, reg)
  let pres : FetchOutcome × List String :=
    prepare_source_dir oracle source_dir input_source_dir dirs1
  let cid := rr.1.nextId
  let rt2 : ContainerRuntime :=
    { nextId := cid + 1, running := cid :: rr.1.running, waitCode := rr.1.waitCode }
  let exitcode := rt2.waitCode cid
  let outcome : Option String × Option (List String) × Registry :=
    if exitcode ≠ 0 then (some "Unable to build container", none, rr.2)
    else
      match build_deployable_image runtime_image false env_str with
      | Except.error _ => (some "IndexError", none, rr.2)
      | Except.ok lines =>
        match daemonResult with
        | some _ =>
            (none, some lines,
             { rr.2 with localNames := app_build_tag :: rr.2.localNames })
        | none => (none, some lines, rr.2)
  let rt3 : ContainerRuntime := { rt2 with running := rt2.running.erase cid }
  let dirs2 := match working_dir with
    | none => rmtree build_dir (rmtree runtime_build_dir (rmtree builder_build_dir pres.2))
    | some _ => pres.2
  { raised := outcome.1, daemonLines := outcome.2.1, dirs := dirs2,
    running := rt3.running, reg := outcome.2.2 }

/-- builder.py 321 and 330-332 / 340-342: the incremental decision taken in
Builder.main.  is_incremental starts as the negation of the clean flag; only
when it is true are the pull of the prior-build image and the local-registry
check performed, refining the flag. -/
def main_incremental_decision (clean : Bool) (reg : Registry) (app_image : String) :
    Bool × Registry :=
  let is_incremental := !clean
  if is_incremental then
    let reg2 := pull_image reg app_image
    (is_image_in_local_registry reg2 app_image, reg2)
  else (is_incremental, reg)

/-- Daemon state consulted by Builder.validate_image (builder.py 143-175):
the image list each name filter returns, each image id's configured
entrypoint (empty list models a null or empty Entrypoint, which python
treats as falsy), and which files each probe container contains. -/
structure InspectState where
  localImages : String → List String
  inspectEntrypoint : String → List String
  fileExists : String → String → Bool

/-- builder.py 84-89 Builder.check_file_exists: the copy call succeeds iff
the file exists in the container (APIError is caught and mapped to False). -/
def check_file_exists (st : InspectState) (container_id file_path : String) : Bool :=
  st.fileExists container_id file_path

/-- builder.py 167-175 Builder.validate_required_files: the flag starts true
and is cleared for every missing file (each one is logged). -/
def validate_required_files (st : InspectState) (container_id : String)
    (required_files : List String) : Bool :=
  required_files.foldl
    (fun valid f => if check_file_exists st container_id f then valid else false) true

/-- builder.py 143-165 Builder.validate_image: fail when the image list is
empty; fail when the inspected config declares a truthy Entrypoint; otherwise
probe for the required lifecycle files (save-artifacts added when
validate_incremental). -/
def validate_image (st : InspectState) (image_name container_id : String)
    (validate_incremental : Bool) : Bool :=
  match st.localImages image_name with
  | [] => false
  | imgId :: _ =>
    if st.inspectEntrypoint imgId ≠ [] then false
    else
      let required_files := ["/usr/bin/prepare", "/usr/bin/run"] ++
        (if validate_incremental then ["/usr/bin/save-artifacts"] else [])
      validate_required_files st container_id required_files

end STI

namespace Wharfie

/-- Daemon state consulted by the wharfie Builder.validate_image (wharfie
builder.py 70-105): the image list per name filter, each image id's
configured entrypoint, whether create_container succeeds, and which files the
probe container contains. -/
structure WClient where
  localImages : String → List String
  inspectEntrypoint : String → List String
  createOk : Bool
  fileExists : String → Bool

/-- wharfie builder.py 70-105 Builder.validate_image.  The image list is
fetched once; when it is empty the image is pulled from the remote, but the
code then indexes the previously fetched list with images[0].  Returns the
verdict (or the uncaught exception) together with the pull calls issued. -/
def validate_image (c : WClient) (image_name : String)
    (should_support_incremental : Bool) : Except String Bool × List String :=
  let images := c.localImages image_name
  let pulls := if images.length = 0 then [image_name] else []
  match STI.pyIndex images 0 with
  | Except.error e => (Except.error e, pulls)
  | Except.ok imgId =>
    if c.inspectEntrypoint imgId ≠ [] then (Except.ok false, pulls)
    else
      let required_files := ["/usr/bin/prepare", "/usr/bin/run"] ++
        (if should_support_incremental then ["/usr/bin/save-artifacts"] else [])
      if c.createOk then
        (Except.ok (required_files.foldl
          (fun valid f => if c.fileExists f then valid else false) true), pulls)
      else (Except.ok false, pulls)

end Wharfie

/-- A clone oracle under which every git clone exits with code 128. -/
def cloneFailOracle : STI.CloneOracle := { exitCode := fun _ => 128 }

/-- A clone oracle under which every git clone succeeds. -/
def cloneOkOracle : STI.CloneOracle := { exitCode := fun _ => 0 }

/-- A container runtime with no containers and every wait returning 0. -/
def rt0 : STI.ContainerRuntime := { nextId := 0, running := [], waitCode := fun _ => 0 }

/-- A container runtime whose wait calls all report exit code 3. -/
def rtNonzero : STI.ContainerRuntime := { nextId := 0, running := [], waitCode := fun _ => 3 }

/-- A daemon state whose one image declares an entrypoint while every
lifecycle file is present in the probe container. -/
def entryState : STI.InspectState :=
  { localImages := fun _ => ["img1"],
    inspectEntrypoint := fun _ => ["/entry.sh"],
    fileExists := fun _ _ => true }

/-- A wharfie client whose one image declares an entrypoint while the probe
would find every lifecycle file. -/
def wEntryClient : Wharfie.WClient :=
  { localImages := fun _ => ["img1"],
    inspectEntrypoint := fun _ => ["/entry.sh"],
    createOk := true,
    fileExists := fun _ => true }

/-- A wharfie client whose local registry has no images at all. -/
def wEmptyClient : Wharfie.WClient :=
  { localImages := fun _ => [],
    inspectEntrypoint := fun _ => [],
    createOk := true,
    fileExists := fun _ => true }

/-- A well-formed env entry contains at least one equals sign, so splitting
on it yields at least two segments. -/
def envEntryOk (e : String) : Bool := 2 ≤ (STI.pySplitEq e).length

lemma all_rmtree (d : String) (ds : List String) :
    (STI.rmtree d ds).all (fun x => !(STI.pyStartsWith x d)) = true := by
  simp only [STI.rmtree, List.all_eq_true, List.mem_filter]
  exact fun x hx => hx.2

lemma writeEnvLines_ok (env : List String) (acc : List String)
    (h : env.all envEntryOk = true) :
    ∃ ls, STI.writeEnvLines env acc = Except.ok ls ∧ ∀ x ∈ acc, x ∈ ls := by
  induction env generalizing acc with
  | nil => exact ⟨acc, rfl, fun x hx => hx⟩
  | cons e rest ih =>
    rw [List.all_cons, Bool.and_eq_true] at h
    obtain ⟨he, hrest⟩ := h
    match hsp : STI.pySplitEq e with
    | [] => rw [envEntryOk, hsp] at he; simp at he
    | [n] => rw [envEntryOk, hsp] at he; simp at he
    | n :: v :: tail =>
      obtain ⟨ls, hls, hmem⟩ := ih (acc ++ ["ENV " ++ n ++ " " ++ v ++ "\n"]) hrest
      refine ⟨ls, ?_, fun x hx => hmem x (by simp [hx])⟩
      simpa [STI.writeEnvLines, hsp] using hls

lemma build_deployable_image_artifacts (img : String) (env : List String)
    (h : env.all envEntryOk = true) :
    ∃ ls, STI.build_deployable_image img true env = Except.ok ls ∧
      "ADD ./artifacts /usr/artifacts/\n" ∈ ls := by
  obtain ⟨ls, hls, hmem⟩ := writeEnvLines_ok env
    ["FROM " ++ img ++ "\n", "ADD ./src /usr/src/\n", "ADD ./artifacts /usr/artifacts/\n"] h
  refine ⟨ls ++ ["RUN /usr/bin/prepare\n", "CMD /usr/bin/run\n"], ?_, ?_⟩
  · simp [STI.build_deployable_image, hls]
  · have : "ADD ./artifacts /usr/artifacts/\n" ∈ ls := hmem _ (by simp)
    simp [this]

/-- C5: calling descriptor generation with hasArtifacts = false and an empty
environment list produces exactly the four steps FROM base, ADD ./src,
RUN prepare, CMD run, with no artifacts step and no env steps. -/
theorem C5_four_steps (image_name : String) :
    STI.build_deployable_image image_name false []
      = Except.ok ["FROM " ++ image_name ++ "\n", "ADD ./src /usr/src/\n",
                   "RUN /usr/bin/prepare\n", "CMD /usr/bin/run\n"] := by
  simp [STI.build_deployable_image, STI.writeEnvLines]

/-- C1 (code-bug exhibit): with a source matching a remote URI scheme and the
clone command exiting 128, prepare_source_dir signals the failure (carrying
the failing command and exit code), yet Builder.build ignores that result:
the Dockerfile is still generated and the daemon build is still executed, so
the pipeline does not abort as the claim requires. -/
theorem C1_clone_failure_does_not_abort :
    (STI.build cloneFailOracle rt0 [] none "base" "https://example.com/app.git"
        false "app" [] (some "imgid")).fetchResult
      = STI.FetchOutcome.cloneFailed
          "git clone --quiet https://example.com/app.git /tmp/sti-build/src" 128
    ∧ (STI.build cloneFailOracle rt0 [] none "base" "https://example.com/app.git"
        false "app" [] (some "imgid")).daemonLines
      = some ["FROM base\n", "ADD ./src /usr/src/\n",
              "RUN /usr/bin/prepare\n", "CMD /usr/bin/run\n"]
    ∧ (STI.build cloneFailOracle rt0 [] none "base" "https://example.com/app.git"
        false "app" [] (some "imgid")).img = some "imgid" := by
  refine ⟨?_, ?_, ?_⟩ <;> rfl

/-- C2 counterexample: the env entry A=b=c is split on every equals sign and
only the first two segments are kept, so the emitted step is ENV A b; the
value b=c is not carried into the step unchanged. -/
theorem C2_counterexample :
    STI.build_deployable_image "base" false ["A=b=c"]
      = Except.ok ["FROM base\n", "ADD ./src /usr/src/\n", "ENV A b\n",
                   "RUN /usr/bin/prepare\n", "CMD /usr/bin/run\n"]
    ∧ STI.build_deployable_image "base" false ["A=b=c"]
      ≠ Except.ok ["FROM base\n", "ADD ./src /usr/src/\n", "ENV A b=c\n",
                   "RUN /usr/bin/prepare\n", "CMD /usr/bin/run\n"] := by
  have hmain : STI.build_deployable_image "base" false ["A=b=c"]
      = Except.ok ["FROM base\n", "ADD ./src /usr/src/\n", "ENV A b\n",
                   "RUN /usr/bin/prepare\n", "CMD /usr/bin/run\n"] := by rfl
  refine ⟨hmain, fun hbad => ?_⟩
  rw [hmain] at hbad
  simp at hbad

/-- C2 (amended): each env entry is split on every equals sign; the ENV step
uses the first segment as the name and the second segment as the value, so
any text from the second equals sign onward is dropped from the step. -/
theorem C2_amended (img e n v : String) (rest : List String)
    (h : STI.pySplitEq e = n :: v :: rest) :
    STI.build_deployable_image img false [e]
      = Except.ok ["FROM " ++ img ++ "\n", "ADD ./src /usr/src/\n",
                   "ENV " ++ n ++ " " ++ v ++ "\n",
                   "RUN /usr/bin/prepare\n", "CMD /usr/bin/run\n"] := by
  simp [STI.build_deployable_image, STI.writeEnvLines, h]

/-- Witness for C2 (amended) at the concrete entry A=b=c. -/
theorem C2_amended_witness :
    (STI.pySplitEq "A=b=c" = ["A", "b", "c"])
    ∧ STI.build_deployable_image "base" false ["A=b=c"]
      = Except.ok ["FROM base\n", "ADD ./src /usr/src/\n", "ENV A b\n",
                   "RUN /usr/bin/prepare\n", "CMD /usr/bin/run\n"] :=
  ⟨by decide, C2_amended "base" "A=b=c" "A" "b" ["c"] (by decide)⟩

/-- C4: any image whose inspected configuration declares a non-empty
Entrypoint fails validation in both the sti and the wharfie variant,
regardless of which lifecycle files the probe would report present. -/
theorem C4_entrypoint_fails_validation
    (st : STI.InspectState) (name cid : String) (inc : Bool)
    (imgId : String) (rest : List String)
    (h1 : st.localImages name = imgId :: rest)
    (h2 : st.inspectEntrypoint imgId ≠ [])
    (wc : Wharfie.WClient) (wname : String) (winc : Bool)
    (wimgId : String) (wrest : List String)
    (h3 : wc.localImages wname = wimgId :: wrest)
    (h4 : wc.inspectEntrypoint wimgId ≠ []) :
    STI.validate_image st name cid inc = false
    ∧ Wharfie.validate_image wc wname winc = (Except.ok false, []) := by
  constructor
  · simp [STI.validate_image, h1, h2]
  · simp [Wharfie.validate_image, STI.pyIndex, h3, h4]

/-- Witness for C4 at a concrete daemon state whose image has entrypoint
/entry.sh while every lifecycle file is present. -/
theorem C4_witness :
    STI.validate_image entryState "base" "c1" true = false
    ∧ Wharfie.validate_image wEntryClient "base" true = (Except.ok false, []) :=
  C4_entrypoint_fails_validation entryState "base" "c1" true "img1" [] rfl
    (by decide) wEntryClient "base" true "img1" [] rfl (by decide)

/-- C6: a non-zero exit code from the save-artifacts container does not abort
the pipeline: Builder.build still generates the Dockerfile including the
ADD ./artifacts step, executes the daemon build, and propagates no error. -/
theorem C6_save_artifacts_best_effort
    (oracle : STI.CloneOracle) (rt : STI.ContainerRuntime) (dirs : List String)
    (working_dir : Option String) (image_name source_dir tag : String)
    (env_str : List String) (daemonResult : Option String)
    (_hexit : rt.waitCode rt.nextId ≠ 0)
    (henv : env_str.all envEntryOk = true) :
    ∃ ls, (STI.build oracle rt dirs working_dir image_name source_dir true tag
            env_str daemonResult).daemonLines = some ls
      ∧ "ADD ./artifacts /usr/artifacts/\n" ∈ ls
      ∧ (STI.build oracle rt dirs working_dir image_name source_dir true tag
            env_str daemonResult).raised = none := by
  obtain ⟨ls, hstep, hmem⟩ := build_deployable_image_artifacts image_name env_str henv
  exact ⟨ls, by simp [STI.build, hstep], hmem, by simp [STI.build, hstep]⟩

/-- Witness for C6 at a concrete runtime whose save-artifacts container exits
with code 3. -/
theorem C6_witness :
    ∃ ls, (STI.build cloneOkOracle rtNonzero [] none "base" "/app/src" true "app"
            [] (some "imgid")).daemonLines = some ls
      ∧ "ADD ./artifacts /usr/artifacts/\n" ∈ ls
      ∧ (STI.build cloneOkOracle rtNonzero [] none "base" "/app/src" true "app"
            [] (some "imgid")).raised = none :=
  C6_save_artifacts_best_effort cloneOkOracle rtNonzero [] none "base" "/app/src"
    "app" [] (some "imgid") (by decide) (by decide)

/-- C7: whenever the clean flag is set, the incremental decision taken by
Builder.main is false, for every registry state (so independently of whether
a prior-build image exists locally or can be pulled). -/
theorem C7_clean_never_incremental (reg : STI.Registry) (app_image : String) :
    (STI.main_incremental_decision true reg app_image).1 = false := rfl

/-- C8: after any run of either pipeline with no explicit working directory —
success or failure — no directory under the temporary build-context directory
remains on disk. -/
theorem C8_temp_dir_removed
    (oracle : STI.CloneOracle) (rt : STI.ContainerRuntime) (reg : STI.Registry)
    (dirs : List String) (image_name build_image runtime_image source_dir tag abt : String)
    (incremental : Bool) (env : List String) (daemonResult : Option String) :
    ((STI.build oracle rt dirs none image_name source_dir incremental tag env
        daemonResult).dirs.all (fun d => !(STI.pyStartsWith d STI.TEMP_DIR))) = true
    ∧ ((STI.extended_build oracle rt reg dirs none build_image runtime_image source_dir
        incremental tag abt env daemonResult).dirs.all
          (fun d => !(STI.pyStartsWith d STI.TEMP_DIR))) = true := by
  exact ⟨all_rmtree _ _, all_rmtree _ _⟩

/-- C9: an env entry containing no equals sign makes Dockerfile generation
fail (the IndexError from env[1]) with only the FROM and ADD ./src lines
written — no ENV step with an empty value is emitted. -/
theorem C9_malformed_env_fails (img e : String)
    (h : (STI.pySplitEq e).length = 1) :
    STI.build_deployable_image img false [e]
      = Except.error ["FROM " ++ img ++ "\n", "ADD ./src /usr/src/\n"] := by
  match hsp : STI.pySplitEq e with
  | [x] => simp [STI.build_deployable_image, STI.writeEnvLines, hsp]
  | [] => rw [hsp] at h; simp at h
  | a :: b :: t => rw [hsp] at h; simp at h

/-- Witness for C9 at the concrete entry NOVALUE. -/
theorem C9_witness :
    (STI.pySplitEq "NOVALUE").length = 1
    ∧ STI.build_deployable_image "base" false ["NOVALUE"]
      = Except.error ["FROM base\n", "ADD ./src /usr/src/\n"] :=
  ⟨by decide, C9_malformed_env_fails "base" "NOVALUE" (by decide)⟩

/-- C10: when the requested image is absent from the local registry, the
wharfie validate_image pulls it from the remote but then indexes the
previously fetched empty list with images[0], so the call raises an uncaught
IndexError instead of returning a verdict. -/
theorem C10_missing_image_index_error (wc : Wharfie.WClient) (name : String)
    (inc : Bool) (h : wc.localImages name = []) :
    Wharfie.validate_image wc name inc = (Except.error "IndexError", [name]) := by
  simp [Wharfie.validate_image, STI.pyIndex, h]

/-- Witness for C10 at a concrete client with an empty local registry. -/
theorem C10_witness :
    wEmptyClient.localImages "missing" = []
    ∧ Wharfie.validate_image wEmptyClient "missing" false
      = (Except.error "IndexError", ["missing"]) :=
  ⟨rfl, C10_missing_image_index_error wEmptyClient "missing" false rfl⟩
